import Mathlib

/-!
Shallow embedding of `pi-proximity-display` (crates `vcnl4010` and
`pi-proximity-display`), covering:

* the bit-packed sensor registers `SensorCommand`, `ProductInfo` and
  `LEDCurrent` of `vcnl4010/src/lib.rs` (generated by the `bitfield` macro of
  the `bitfield-struct` crate: each type stores one raw `u8`, field accessors
  extract bit ranges, `with_*` setters mask the value to the field width and
  splice it in, `from_bits`/`into_bits` are the identity on the raw byte);
* the presence state machine `State`/`State::update` and the brightness
  mapper `map_ambient_to_display_brightness` of
  `pi-proximity-display/src/main.rs`;
* the body of the polling loop in `main` as an explicit step function
  (`cycle`) on a loop-state record, emitting the display side effects
  (power writes and brightness writes) as a list of `Action`s;
* the `wlopm` stderr protocol check of `pi-proximity-display/src/display.rs`.

Modelling conventions: `u8`/`u16`/`u32` values are `Nat` with explicit
`% 2 ^ w` where wrap-around matters; `Instant` is a `Nat` timestamp and
`Duration` a `Nat`, so `Instant::elapsed` (which saturates at zero) is
truncated `Nat` subtraction `now - t0`; `f32` arithmetic in the brightness
mapper is modelled with exact rationals (the zero tests on the spans are
exact either way, since casting a `u32` to `f32` yields `0.0` only for `0`);
fallible Rust functions return `Except`.
-/

namespace Prox

/-- Bit `i` of a byte: Rust `(bits >> i) & 1 != 0`, written with `/` and `%`. -/
def testBit8 (n i : Nat) : Bool :=
  decide (n / 2 ^ i % 2 = 1)

/-- Overwrite bit `i` of a byte with `b`:
Rust `(bits & !(1 << i)) | ((b as u8) << i)`. -/
def setBit8 (n i : Nat) (b : Bool) : Nat :=
  n - n / 2 ^ i % 2 * 2 ^ i + (if b then 2 ^ i else 0)

/-- `vcnl4010/src/lib.rs` lines 21-53: `#[bitfield(u8)] struct SensorCommand`,
eight independent boolean flags packed into one byte, stored as the raw byte. -/
structure SensorCommand where
  bits : Nat
deriving DecidableEq

def SensorCommand.new : SensorCommand := ⟨0⟩

def SensorCommand.from_bits (b : Nat) : SensorCommand := ⟨b⟩

def SensorCommand.into_bits (c : SensorCommand) : Nat := c.bits

def SensorCommand.self_timed_enabled (c : SensorCommand) : Bool := testBit8 c.bits 0
def SensorCommand.proximity_enabled (c : SensorCommand) : Bool := testBit8 c.bits 1
def SensorCommand.ambient_light_enabled (c : SensorCommand) : Bool := testBit8 c.bits 2
def SensorCommand.proximity_on_demand (c : SensorCommand) : Bool := testBit8 c.bits 3
def SensorCommand.ambient_light_on_demand (c : SensorCommand) : Bool := testBit8 c.bits 4
def SensorCommand.proximity_data_ready (c : SensorCommand) : Bool := testBit8 c.bits 5
def SensorCommand.ambient_light_data_ready (c : SensorCommand) : Bool := testBit8 c.bits 6
def SensorCommand.config_lock (c : SensorCommand) : Bool := testBit8 c.bits 7

def SensorCommand.with_self_timed_enabled (c : SensorCommand) (b : Bool) : SensorCommand :=
  ⟨setBit8 c.bits 0 b⟩
def SensorCommand.with_proximity_enabled (c : SensorCommand) (b : Bool) : SensorCommand :=
  ⟨setBit8 c.bits 1 b⟩
def SensorCommand.with_ambient_light_enabled (c : SensorCommand) (b : Bool) : SensorCommand :=
  ⟨setBit8 c.bits 2 b⟩
def SensorCommand.with_proximity_on_demand (c : SensorCommand) (b : Bool) : SensorCommand :=
  ⟨setBit8 c.bits 3 b⟩
def SensorCommand.with_ambient_light_on_demand (c : SensorCommand) (b : Bool) : SensorCommand :=
  ⟨setBit8 c.bits 4 b⟩
def SensorCommand.with_proximity_data_ready (c : SensorCommand) (b : Bool) : SensorCommand :=
  ⟨setBit8 c.bits 5 b⟩
def SensorCommand.with_ambient_light_data_ready (c : SensorCommand) (b : Bool) : SensorCommand :=
  ⟨setBit8 c.bits 6 b⟩
def SensorCommand.with_config_lock (c : SensorCommand) (b : Bool) : SensorCommand :=
  ⟨setBit8 c.bits 7 b⟩

/-- Error type of `vcnl4010/src/error.rs` (the `I2CError` variant wraps an
opaque bus error and is not needed by any pure function modelled here). -/
inductive Error where
  | InvalidProduct (product revision : Nat)
  | InvalidLEDCurrent (current : Nat)
deriving DecidableEq

/-- `vcnl4010/src/lib.rs` lines 139-146: `#[bitfield(u8)] struct ProductInfo`,
`revision` in bits 0-3, `product` in bits 4-7. -/
structure ProductInfo where
  bits : Nat
deriving DecidableEq

def ProductInfo.new : ProductInfo := ⟨0⟩

def ProductInfo.from_bits (b : Nat) : ProductInfo := ⟨b⟩

def ProductInfo.into_bits (p : ProductInfo) : Nat := p.bits

def ProductInfo.revision (p : ProductInfo) : Nat := p.bits % 16

def ProductInfo.product (p : ProductInfo) : Nat := p.bits / 16 % 16

def ProductInfo.with_revision (p : ProductInfo) (v : Nat) : ProductInfo :=
  ⟨p.bits / 16 * 16 + v % 16⟩

def ProductInfo.with_product (p : ProductInfo) (v : Nat) : ProductInfo :=
  ⟨p.bits % 16 + v % 16 * 16⟩

/-- `vcnl4010/src/lib.rs` lines 150-159: `ProductInfo::verify`. -/
def ProductInfo.verify (p : ProductInfo) : Except Error ProductInfo :=
  if ¬(p.product = 2 ∧ p.revision = 1) then
    Except.error (Error.InvalidProduct p.product p.revision)
  else
    Except.ok p

/-- `vcnl4010/src/lib.rs` lines 166-173: `#[bitfield(u8)] struct LEDCurrent`,
`current` in bits 0-5, `fuse_prog_id` in bits 6-7. -/
structure LEDCurrent where
  bits : Nat
deriving DecidableEq

def LEDCurrent.new : LEDCurrent := ⟨0⟩

def LEDCurrent.from_bits (b : Nat) : LEDCurrent := ⟨b⟩

def LEDCurrent.into_bits (c : LEDCurrent) : Nat := c.bits

def LEDCurrent.current (c : LEDCurrent) : Nat := c.bits % 64

def LEDCurrent.fuse_prog_id (c : LEDCurrent) : Nat := c.bits / 64 % 4

/-- Generated setter for the 6-bit `current` field:
Rust `(bits & 0xC0) | (v & 0x3F)`. -/
def LEDCurrent.with_current (c : LEDCurrent) (v : Nat) : LEDCurrent :=
  ⟨c.bits / 64 % 4 * 64 + v % 64⟩

/-- `vcnl4010/src/lib.rs` lines 176-182: `LEDCurrent::verify`. -/
def LEDCurrent.verify (c : LEDCurrent) : Except Error LEDCurrent :=
  if c.current > 20 then
    Except.error (Error.InvalidLEDCurrent c.current)
  else
    Except.ok c

/-- `vcnl4010/src/lib.rs` lines 184-188: `LEDCurrent::with_current_ma`.
Rust `(ma / 10).clamp(0, 20)` on a `u16` is `min (ma / 10) 20` on `Nat`
(the lower clamp bound `0` is vacuous on an unsigned value). -/
def LEDCurrent.with_current_ma (c : LEDCurrent) (ma : Nat) : LEDCurrent :=
  c.with_current (min (ma / 10) 20)

/-- `vcnl4010/src/lib.rs` lines 190-192: `LEDCurrent::to_milliamps`. -/
def LEDCurrent.to_milliamps (c : LEDCurrent) : Nat :=
  c.current * 10

/-- Big-endian composition of the two result registers:
`((high as u16) << 8) | (low as u16)` (`read_ambient_light`,
`read_proximity`, `vcnl4010/src/lib.rs` lines 226-244). For `high, low < 256`
the `|` has no carry and equals `+`. -/
def composeU16 (high low : Nat) : Nat :=
  high % 256 * 256 + low % 256

/-- `std::ops::Range<u32>` as used by the CLI arguments (`start..end`). -/
structure Range where
  start : Nat
  «end» : Nat
deriving DecidableEq

/-- The fields of `Args` (`pi-proximity-display/src/main.rs` lines 28-68)
consumed by the state machine and the brightness mapper. Durations are in
arbitrary `Nat` time units. -/
structure Args where
  proximity_range : Range
  proximity_hold : Nat
  ambient_light_range : Option Range
  brightness_range : Option Range
deriving DecidableEq

/-- `pi-proximity-display/src/main.rs` lines 70-75: `enum State`.
`Instant` is modelled as a `Nat` timestamp. -/
inductive State where
  | Detected
  | Cleared
  | ClearedTransitioning (t0 : Nat)
deriving DecidableEq

/-- `pi-proximity-display/src/main.rs` lines 78-95: `State::update`.
`Instant::now()` is the explicit parameter `now`; `i.elapsed()` is `now - t0`
(`Instant::elapsed` saturates at zero, as truncated `Nat` subtraction does). -/
def State.update (s : State) (args : Args) (proximity : Nat) (now : Nat) : Option State :=
  if s ≠ State.Detected ∧ proximity ≥ args.proximity_range.«end» then
    some State.Detected
  else
    match s with
    | State.Detected =>
      if proximity ≤ args.proximity_range.start then
        some (State.ClearedTransitioning now)
      else
        none
    | State.ClearedTransitioning t0 =>
      if now - t0 > args.proximity_hold then
        some State.Cleared
      else
        none
    | State.Cleared => none

/-- `pi-proximity-display/src/display.rs` lines 80-84: `enum DisplayPowerMode`. -/
inductive DisplayPowerMode where
  | On
  | Off
deriving DecidableEq

/-- An observable side effect of one loop cycle: a display power write
(`Display::set_power`) or a brightness write (`Display::set_brightness`). -/
inductive Action where
  | power (mode : DisplayPowerMode)
  | setBrightness (brightness : Nat)
deriving DecidableEq

/-- `pi-proximity-display/src/main.rs` lines 97-105: `State::transition`,
as the list of display power writes it performs. -/
def State.transition : State → List Action
  | State.Detected => [Action.power DisplayPowerMode.On]
  | State.Cleared => [Action.power DisplayPowerMode.Off]
  | _ => []

/-- `u32` subtraction `a - b` with release-mode wrap-around semantics. -/
def sub32 (a b : Nat) : Nat :=
  (a + 2 ^ 32 - b) % 2 ^ 32

/-- Rust `f32::round`: nearest integer, ties away from zero; exact on ℚ. -/
def roundHalfAwayFromZero (q : ℚ) : Int :=
  if q < 0 then -⌊-q + 1 / 2⌋ else ⌊q + 1 / 2⌋

/-- Rust `as u32` on a float value already rounded to an integer:
saturating at the bounds of `u32`. -/
def castToU32 (i : Int) : Nat :=
  if i < 0 then 0 else min i.toNat (2 ^ 32 - 1)

/-- Rust `u32::clamp(lo, hi)` (which panics when `lo > hi`; modelled total). -/
def u32Clamp (x lo hi : Nat) : Nat :=
  max lo (min x hi)

/-- `pi-proximity-display/src/main.rs` lines 131-148:
`map_ambient_to_display_brightness`. The spans are computed in `u32` and cast
to `f32`; the test `span == 0.0` holds iff the `u32` span is `0`, since the
cast sends `0` and only `0` to `0.0`, so the branch condition is stated on the
`Nat` spans and the degenerate branch is modelled exactly. The interpolation
arm is an exact-rational idealization of the program's `f32` arithmetic: the
`u32`-to-`f32` casts and the `f32` operations round to 24-bit precision,
which ℚ does not, so for inputs beyond that precision (spans or ambient
values of 2^25 and up) the two can differ. No theorem below depends on the
interpolation arm's values: the zero-span property uses only the degenerate
branch, the double-cycle property uses only that the computation is a
function of its inputs, and the zero-brightness frame property is stated
over an arbitrary brightness computation (`cycleWith`). -/
def map_ambient_to_display_brightness
    (ambient : Nat) (ambient_light_range brightness_range : Range) : Nat :=
  let ambient_start : ℚ := ambient_light_range.start
  let brightness_start : ℚ := brightness_range.start
  let ambient_span : Nat := sub32 ambient_light_range.«end» ambient_light_range.start
  let brightness_span : Nat := sub32 brightness_range.«end» brightness_range.start
  if ambient_span = 0 ∨ brightness_span = 0 then
    brightness_range.start
  else
    let mapped : ℚ :=
      brightness_start + ((ambient : ℚ) - ambient_start) * (brightness_span : ℚ) / (ambient_span : ℚ)
    u32Clamp (castToU32 (roundHalfAwayFromZero mapped))
      brightness_range.start brightness_range.«end»

/-- The mutable state of the polling loop in `main`
(`pi-proximity-display/src/main.rs` lines 179-181): the cycle counter, the
presence state, and the last-applied brightness. -/
structure LoopState where
  count : Nat
  state : State
  brightness : Nat
deriving DecidableEq

/-- One iteration of the polling loop (`pi-proximity-display/src/main.rs`
lines 183-208) with the sensor readings `proximity_val` and
`ambient_light_val` and the current time `now` as explicit inputs, returning
the updated loop state and the display writes performed, in order. -/
def cycle (args : Args) (ls : LoopState)
    (proximity_val ambient_light_val now : Nat) : LoopState × List Action :=
  let stateStep :=
    match ls.state.update args proximity_val now with
    | some new => (new, new.transition)
    | none => (ls.state, [])
  let brightnessStep :=
    match args.ambient_light_range, args.brightness_range with
    | some ambient, some display =>
      let new_brightness := map_ambient_to_display_brightness ambient_light_val ambient display
      if new_brightness ≠ ls.brightness then
        (new_brightness, [Action.setBrightness new_brightness])
      else
        (ls.brightness, [])
    | _, _ => (ls.brightness, [])
  (⟨ls.count + 1, stateStep.1, brightnessStep.1⟩, stateStep.2 ++ brightnessStep.2)

/-- The sensor readings and time of one loop iteration. -/
structure CycleInput where
  proximity : Nat
  ambient : Nat
  now : Nat
deriving DecidableEq

/-- Iterating `cycle` over a list of inputs, accumulating all display writes. -/
def runCycles (args : Args) (ls : LoopState) : List CycleInput → LoopState × List Action
  | [] => (ls, [])
  | i :: rest =>
    let step := cycle args ls i.proximity i.ambient i.now
    let restRun := runCycles args step.1 rest
    (restRun.1, step.2 ++ restRun.2)

/-- The loop state entering the first iteration
(`pi-proximity-display/src/main.rs` lines 179-181): `count = 0`,
`state = State::Cleared`, `brightness = 0` — the brightness initial value is
never written to the display. -/
def initialLoopState : LoopState := ⟨0, State.Cleared, 0⟩

/-- The loop body of `cycle` with the brightness computation abstracted into
a parameter `mapf`; `cycle` is exactly
`cycleWith map_ambient_to_display_brightness` (see `cycle_eq_cycleWith`).
The program computes the brightness in `f32`, whose rounding the rational
model of `map_ambient_to_display_brightness` does not reproduce exactly, so
properties of the loop's write-on-change logic that are conditional on the
computed values are stated over an arbitrary `mapf`: they then hold in
particular for the program's actual `f32` computation. -/
def cycleWith (mapf : Nat → Range → Range → Nat) (args : Args) (ls : LoopState)
    (proximity_val ambient_light_val now : Nat) : LoopState × List Action :=
  let stateStep :=
    match ls.state.update args proximity_val now with
    | some new => (new, new.transition)
    | none => (ls.state, [])
  let brightnessStep :=
    match args.ambient_light_range, args.brightness_range with
    | some ambient, some display =>
      let new_brightness := mapf ambient_light_val ambient display
      if new_brightness ≠ ls.brightness then
        (new_brightness, [Action.setBrightness new_brightness])
      else
        (ls.brightness, [])
    | _, _ => (ls.brightness, [])
  (⟨ls.count + 1, stateStep.1, brightnessStep.1⟩, stateStep.2 ++ brightnessStep.2)

/-- Iterating `cycleWith mapf` over a list of inputs, accumulating all
display writes; `runCycles` is its instance at
`map_ambient_to_display_brightness` (see `runCycles_eq_runCyclesWith`). -/
def runCyclesWith (mapf : Nat → Range → Range → Nat) (args : Args) (ls : LoopState) :
    List CycleInput → LoopState × List Action
  | [] => (ls, [])
  | i :: rest =>
    let step := cycleWith mapf args ls i.proximity i.ambient i.now
    let restRun := runCyclesWith mapf args step.1 rest
    (restRun.1, step.2 ++ restRun.2)

/-- `std::process::Output` of the `wlopm` subprocess: exit status and the
captured byte streams. -/
structure Output where
  status : Int
  stdout : List Nat
  stderr : List Nat

/-- Whether a byte stream begins with the ASCII text `ERROR`
(`E = 69, R = 82, O = 79`). `String::from_utf8_lossy(s).starts_with("ERROR")`
holds iff the bytes of `s` begin with these five bytes: ASCII bytes decode to
themselves and the replacement character is not ASCII. -/
def startsWithERROR : List Nat → Bool
  | 69 :: 82 :: 82 :: 79 :: 82 :: _ => true
  | _ => false

/-- `pi-proximity-display/src/display.rs` lines 104-114: `wlopm_check_error`. -/
def wlopm_check_error (stderr : List Nat) : Except String Unit :=
  if stderr ≠ [] then
    if startsWithERROR stderr then
      Except.error "wlopm returned an error"
    else
      Except.ok ()
  else
    Except.ok ()

/-- `pi-proximity-display/src/display.rs` lines 54-59 with lines 92-128:
`Display::set_power` dispatches on `mode` to `wlopm_on`/`wlopm_off`, which
differ only in the argument passed to the subprocess; given that the
subprocess launched and produced `out`, both then return
`wlopm_check_error(out.stderr)`. The exit status in `out` is never read. -/
def set_power (mode : DisplayPowerMode) (out : Output) : Except String Unit :=
  match mode with
  | DisplayPowerMode.On => wlopm_check_error out.stderr
  | DisplayPowerMode.Off => wlopm_check_error out.stderr

/-- Modelled from the spec (section 4.2), for comparison with `State.update`:
the four transition rules in their stated priority order —
1. not `Detected` and `proximity ≥ high` → `Detected` (highest priority);
2. else `Detected` and `proximity ≤ low` → `ClearedTransitioning now`;
3. else `ClearedTransitioning t0` and `now - t0 > hold` → `Cleared`;
4. otherwise no transition. -/
def updateSpecRules (s : State) (low high hold proximity now : Nat) : Option State :=
  if s ≠ State.Detected ∧ proximity ≥ high then
    some State.Detected
  else if s = State.Detected ∧ proximity ≤ low then
    some (State.ClearedTransitioning now)
  else
    match s with
    | State.ClearedTransitioning t0 =>
      if now - t0 > hold then some State.Cleared else none
    | _ => none

/-- Generated setter for the 2-bit `fuse_prog_id` field:
Rust `(bits & 0x3F) | ((v & 0x3) << 6)`. -/
def LEDCurrent.with_fuse_prog_id (c : LEDCurrent) (v : Nat) : LEDCurrent :=
  ⟨c.bits % 64 + v % 4 * 64⟩

/-- Whether two states are the same constructor, timestamps disregarded. -/
def sameVariant : State → State → Bool
  | State.Detected, State.Detected => true
  | State.Cleared, State.Cleared => true
  | State.ClearedTransitioning _, State.ClearedTransitioning _ => true
  | _, _ => false

/-- Shared helper: `State.update` computes exactly the spec's priority-ordered
rule chain. -/
lemma update_eq_rules (s : State) (args : Args) (proximity now : Nat) :
    State.update s args proximity now =
      updateSpecRules s args.proximity_range.start args.proximity_range.«end»
        args.proximity_hold proximity now := by
  cases s <;> simp [State.update, updateSpecRules]

/-- C1: `State.update` implements, for every state, thresholds, hold
duration, proximity value, and time, exactly the four transition rules of the
spec in their stated priority order: rule 1 (to `Detected`) first, else
rule 2 (to `ClearedTransitioning now`), else rule 3 (to `Cleared`), else no
transition (`none`, which leaves the state, including the original `t0`,
untouched). -/
theorem state_update_matches_spec_rules (s : State) (args : Args) (proximity now : Nat) :
    State.update s args proximity now =
      updateSpecRules s args.proximity_range.start args.proximity_range.«end»
        args.proximity_hold proximity now :=
  update_eq_rules s args proximity now

/-- C3: when either configured span (`end - start` in `u32` arithmetic) is
zero, the brightness mapper returns `brightness_range.start`, whatever the
ambient value. -/
theorem map_zero_span_returns_start (ambient : Nat) (ambient_light_range brightness_range : Range)
    (h : sub32 ambient_light_range.«end» ambient_light_range.start = 0 ∨
         sub32 brightness_range.«end» brightness_range.start = 0) :
    map_ambient_to_display_brightness ambient ambient_light_range brightness_range =
      brightness_range.start := by
  rcases h with h | h <;> simp [map_ambient_to_display_brightness, h]

/-- Closed instance of `map_zero_span_returns_start`: a zero-width ambient
range `30..30` maps the out-of-range ambient value `999` to the brightness
range start `7`. -/
theorem map_zero_span_returns_start_witness :
    map_ambient_to_display_brightness 999 ⟨30, 30⟩ ⟨7, 100⟩ = 7 :=
  map_zero_span_returns_start 999 ⟨30, 30⟩ ⟨7, 100⟩ (Or.inl (by decide))

/-- C4: for every `u16` milliamp value, `with_current_ma` stores
`floor(ma / 10)` clamped to `[0, 20]` in the current field; `to_milliamps`
is the current code times 10; and the documented instances
`0 ↦ 0`, `55 ↦ 5`, `205 ↦ 20`, `to_milliamps` of code 20 `= 200` hold. -/
theorem with_current_ma_floor_clamp (c : LEDCurrent) (ma : Nat) (h : ma < 65536) :
    (c.with_current_ma ma).current = min (ma / 10) 20 ∧
    c.to_milliamps = c.current * 10 ∧
    (LEDCurrent.new.with_current_ma 0).current = 0 ∧
    (LEDCurrent.new.with_current_ma 55).current = 5 ∧
    (LEDCurrent.new.with_current_ma 205).current = 20 ∧
    (LEDCurrent.from_bits 20).to_milliamps = 200 := by
  refine ⟨?_, rfl, by decide, by decide, by decide, by decide⟩
  simp only [LEDCurrent.with_current_ma, LEDCurrent.with_current, LEDCurrent.current]
  omega

/-- Closed instance of `with_current_ma_floor_clamp`: requesting 205 mA on a
register byte with all bits set stores the clamped code `min (205 / 10) 20`. -/
theorem with_current_ma_floor_clamp_witness :
    (LEDCurrent.with_current_ma ⟨255⟩ 205).current = min (205 / 10) 20 :=
  (with_current_ma_floor_clamp ⟨255⟩ 205 (by decide)).1

/-- C5: `ProductInfo.verify` returns `ok` with the value unchanged exactly
when `product = 2` and `revision = 1`, and otherwise returns the
`InvalidProduct` error carrying the observed product and revision. -/
theorem product_verify_ok_iff (p : ProductInfo) :
    (p.verify = Except.ok p ↔ (p.product = 2 ∧ p.revision = 1)) ∧
    (¬(p.product = 2 ∧ p.revision = 1) →
      p.verify = Except.error (Error.InvalidProduct p.product p.revision)) ∧
    (∀ q, p.verify = Except.ok q → q = p) := by
  by_cases h : p.product = 2 ∧ p.revision = 1 <;>
    simp [ProductInfo.verify, h]

/-- Closed instance of `product_verify_ok_iff`: the documented device byte
`0x21` (product 2, revision 1) verifies successfully. -/
theorem product_verify_ok_iff_witness :
    ProductInfo.verify (ProductInfo.from_bits 33) = Except.ok (ProductInfo.from_bits 33) :=
  (product_verify_ok_iff (ProductInfo.from_bits 33)).1.mpr (by decide)

/-- C10: `with_current_ma` touches only the 6-bit current field; the 2-bit
`fuse_prog_id` field is unchanged for every starting value and every
milliamp input. -/
theorem with_current_ma_preserves_fuse_prog_id (c : LEDCurrent) (ma : Nat) :
    (c.with_current_ma ma).fuse_prog_id = c.fuse_prog_id := by
  simp only [LEDCurrent.with_current_ma, LEDCurrent.with_current, LEDCurrent.fuse_prog_id]
  omega

/-- All eight flag assignments of a `SensorCommand`, built from `new()` with
the generated setters (the only construction path the crate exposes). -/
def buildSensorCommand (f0 f1 f2 f3 f4 f5 f6 f7 : Bool) : SensorCommand :=
  ((((((((SensorCommand.new.with_self_timed_enabled f0).with_proximity_enabled
    f1).with_ambient_light_enabled f2).with_proximity_on_demand
    f3).with_ambient_light_on_demand f4).with_proximity_data_ready
    f5).with_ambient_light_data_ready f6).with_config_lock f7)

set_option maxRecDepth 8000 in
/-- C6: decoding any 8-bit pattern into a `SensorCommand`, `ProductInfo` or
`LEDCurrent` and re-encoding yields the same byte, and for every assignment
of each type's fields (flags for `SensorCommand`; 4-bit revision/product for
`ProductInfo`; 6-bit current and 2-bit fuse program id for `LEDCurrent`),
encoding to a byte and decoding back yields the original field values. -/
theorem bitfield_roundtrip :
    (∀ b < 256, (SensorCommand.from_bits b).into_bits = b) ∧
    (∀ b < 256, (ProductInfo.from_bits b).into_bits = b) ∧
    (∀ b < 256, (LEDCurrent.from_bits b).into_bits = b) ∧
    (∀ f0 f1 f2 f3 f4 f5 f6 f7 : Bool,
      (SensorCommand.from_bits (buildSensorCommand f0 f1 f2 f3 f4 f5 f6 f7).into_bits).self_timed_enabled = f0 ∧
      (SensorCommand.from_bits (buildSensorCommand f0 f1 f2 f3 f4 f5 f6 f7).into_bits).proximity_enabled = f1 ∧
      (SensorCommand.from_bits (buildSensorCommand f0 f1 f2 f3 f4 f5 f6 f7).into_bits).ambient_light_enabled = f2 ∧
      (SensorCommand.from_bits (buildSensorCommand f0 f1 f2 f3 f4 f5 f6 f7).into_bits).proximity_on_demand = f3 ∧
      (SensorCommand.from_bits (buildSensorCommand f0 f1 f2 f3 f4 f5 f6 f7).into_bits).ambient_light_on_demand = f4 ∧
      (SensorCommand.from_bits (buildSensorCommand f0 f1 f2 f3 f4 f5 f6 f7).into_bits).proximity_data_ready = f5 ∧
      (SensorCommand.from_bits (buildSensorCommand f0 f1 f2 f3 f4 f5 f6 f7).into_bits).ambient_light_data_ready = f6 ∧
      (SensorCommand.from_bits (buildSensorCommand f0 f1 f2 f3 f4 f5 f6 f7).into_bits).config_lock = f7) ∧
    (∀ r < 16, ∀ p < 16,
      (ProductInfo.from_bits
        ((ProductInfo.new.with_revision r).with_product p).into_bits).revision = r ∧
      (ProductInfo.from_bits
        ((ProductInfo.new.with_revision r).with_product p).into_bits).product = p) ∧
    (∀ cur < 64, ∀ fp < 4,
      (LEDCurrent.from_bits
        ((LEDCurrent.new.with_current cur).with_fuse_prog_id fp).into_bits).current = cur ∧
      (LEDCurrent.from_bits
        ((LEDCurrent.new.with_current cur).with_fuse_prog_id fp).into_bits).fuse_prog_id = fp) := by
  refine ⟨by decide, by decide, by decide, by decide, by decide, by decide⟩

/-- Closed instance of `bitfield_roundtrip`: the byte `0xAB` survives a
`SensorCommand` decode/encode round trip. -/
theorem bitfield_roundtrip_witness :
    (SensorCommand.from_bits 171).into_bits = 171 :=
  bitfield_roundtrip.1 171 (by decide)

/-- C7: given that the `wlopm` subprocess launched and produced `out`,
`Display::set_power` succeeds iff `out`'s standard error does not begin with
the text `ERROR` (in particular on empty stderr), it fails iff stderr does
begin with `ERROR`, and the result is the same whatever the exit status is. -/
theorem set_power_error_iff (mode : DisplayPowerMode) (out : Output) :
    (set_power mode out = Except.ok () ↔ startsWithERROR out.stderr = false) ∧
    ((∃ e, set_power mode out = Except.error e) ↔ startsWithERROR out.stderr = true) ∧
    (∀ status2 : Int,
      set_power mode ⟨status2, out.stdout, out.stderr⟩ = set_power mode out) := by
  have hcheck : ∀ s : List Nat,
      (wlopm_check_error s = Except.ok () ↔ startsWithERROR s = false) ∧
      ((∃ e, wlopm_check_error s = Except.error e) ↔ startsWithERROR s = true) := by
    intro s
    match hs : s with
    | [] => simp [wlopm_check_error, startsWithERROR]
    | x :: rest =>
      by_cases he : startsWithERROR (x :: rest) = true <;>
        simp_all [wlopm_check_error]
  cases mode <;>
    exact ⟨(hcheck out.stderr).1, (hcheck out.stderr).2, fun _ => rfl⟩

/-- Closed instance of `set_power_error_iff`: a run whose stderr is the
ASCII text `warning` reports success. -/
theorem set_power_error_iff_witness :
    set_power DisplayPowerMode.Off
        ⟨1, [], [119, 97, 114, 110, 105, 110, 103]⟩ = Except.ok () :=
  (set_power_error_iff DisplayPowerMode.Off
    ⟨1, [], [119, 97, 114, 110, 105, 110, 103]⟩).1.mpr (by decide)

/-- C8: whenever `State.update` returns `some s2`, the new state `s2` is a
different constructor than the current state `s`: `Detected` arises only from
non-`Detected` states, `ClearedTransitioning` only from `Detected`, and
`Cleared` only from `ClearedTransitioning`; a `some` result is always a
genuine state change. -/
theorem update_some_changes_variant (s : State) (args : Args) (p now : Nat) (s2 : State)
    (h : State.update s args p now = some s2) :
    sameVariant s s2 = false ∧
    (s2 = State.Detected → s ≠ State.Detected) ∧
    ((∃ t, s2 = State.ClearedTransitioning t) → s = State.Detected) ∧
    (s2 = State.Cleared → ∃ t0, s = State.ClearedTransitioning t0) := by
  rw [update_eq_rules] at h
  unfold updateSpecRules at h
  cases s <;> simp_all [sameVariant] <;>
    (try split at h) <;> cases s2 <;> simp_all [sameVariant]

/-- Closed instance of `update_some_changes_variant`: the transition
`Cleared → Detected` at proximity 160 with thresholds `50..150` changes the
constructor. -/
theorem update_some_changes_variant_witness :
    sameVariant State.Cleared State.Detected = false :=
  (update_some_changes_variant State.Cleared ⟨⟨50, 150⟩, 20, none, none⟩ 160 0
    State.Detected (by decide)).1

/-- Shared helper: the state after one cycle. -/
lemma cycle_state_eq (args : Args) (ls : LoopState) (p a now : Nat) :
    (cycle args ls p a now).1.state =
      match State.update ls.state args p now with
      | some n => n
      | none => ls.state := by
  rcases hu : State.update ls.state args p now with _ | s2 <;> simp [cycle, hu]

/-- Shared helper: the last-applied brightness after one cycle. -/
lemma cycle_brightness_eq (args : Args) (ls : LoopState) (p a now : Nat) :
    (cycle args ls p a now).1.brightness =
      match args.ambient_light_range, args.brightness_range with
      | some ar, some br => map_ambient_to_display_brightness a ar br
      | _, _ => ls.brightness := by
  rcases har : args.ambient_light_range with _ | ar <;>
    rcases hbr : args.brightness_range with _ | br <;>
      simp [cycle, har, hbr]
  split <;> simp_all

/-- Shared helper: a cycle performs no write when the state machine reports
no transition and the computed brightness equals the stored one. -/
lemma cycle_snd_nil (args : Args) (ls : LoopState) (p a now : Nat)
    (hupd : State.update ls.state args p now = none)
    (hbrv : ∀ ar br, args.ambient_light_range = some ar → args.brightness_range = some br →
      map_ambient_to_display_brightness a ar br = ls.brightness) :
    (cycle args ls p a now).2 = [] := by
  rcases har : args.ambient_light_range with _ | ar <;>
    rcases hbr : args.brightness_range with _ | br <;>
      simp [cycle, hupd, har, hbr]
  simp [hbrv ar br har hbr]

/-- Shared helper: with the low threshold strictly below the high threshold,
a transition is never followed by another transition on the same inputs at
the same time. -/
lemma update_after_update (s s2 : State) (args : Args) (p now : Nat)
    (hlh : args.proximity_range.start < args.proximity_range.«end»)
    (h : State.update s args p now = some s2) :
    State.update s2 args p now = none := by
  rw [update_eq_rules] at h ⊢
  unfold updateSpecRules at h ⊢
  cases s with
  | Detected =>
    simp at h
    obtain ⟨hp, rfl⟩ := h
    simp
    omega
  | Cleared =>
    simp at h
    obtain ⟨hp, rfl⟩ := h
    simp
    omega
  | ClearedTransitioning t0 =>
    simp at h
    split at h
    · injection h with h2
      subst h2
      simp
      omega
    · split at h
      · injection h with h2
        subst h2
        simp
        omega
      · exact absurd h (by simp)

/-- C2 counterexample: the claim fails as stated. First input: thresholds
`50..150`, hold 20, state `ClearedTransitioning 0`, proximity 40 and ambient 0
unchanged — the first cycle (at time 15) writes nothing, but the second cycle
(at time 25) crosses the hold window and issues a power-off write. Second
input: degenerate thresholds `100..100`, state `Detected`, proximity 100,
both cycles at time 5 — the second cycle issues a power-on write. -/
theorem cycle_twice_unchanged_counterexample :
    (cycle ⟨⟨50, 150⟩, 20, none, none⟩
      (cycle ⟨⟨50, 150⟩, 20, none, none⟩ ⟨0, State.ClearedTransitioning 0, 0⟩ 40 0 15).1
      40 0 25).2 = [Action.power DisplayPowerMode.Off] ∧
    (cycle ⟨⟨100, 100⟩, 20, none, none⟩
      (cycle ⟨⟨100, 100⟩, 20, none, none⟩ ⟨0, State.Detected, 0⟩ 100 0 5).1
      100 0 5).2 = [Action.power DisplayPowerMode.On] :=
  ⟨by decide, by decide⟩

/-- C2 (amended): invoking the controller cycle twice with unchanged
proximity, unchanged ambient value, and an unchanged clock reading, and with
the low threshold strictly below the high threshold, the second cycle issues
no display power action and no `set_brightness` call — for every starting
state and last-applied brightness. -/
theorem cycle_twice_unchanged_no_second_write (args : Args) (ls : LoopState) (p a now : Nat)
    (hlh : args.proximity_range.start < args.proximity_range.«end») :
    (cycle args (cycle args ls p a now).1 p a now).2 = [] := by
  apply cycle_snd_nil
  · rw [cycle_state_eq]
    rcases hu : State.update ls.state args p now with _ | s2
    · simp [hu]
    · simpa [hu] using update_after_update ls.state s2 args p now hlh hu
  · intro ar br har hbr
    rw [cycle_brightness_eq, har, hbr]

/-- Closed instance of `cycle_twice_unchanged_no_second_write`: thresholds
`50..150`, state `Cleared`, proximity 160 — the first cycle powers the
display on, the second cycle performs no write. -/
theorem cycle_twice_unchanged_no_second_write_witness :
    (cycle ⟨⟨50, 150⟩, 20, none, none⟩
      (cycle ⟨⟨50, 150⟩, 20, none, none⟩ ⟨0, State.Cleared, 0⟩ 160 0 0).1
      160 0 0).2 = [] :=
  cycle_twice_unchanged_no_second_write ⟨⟨50, 150⟩, 20, none, none⟩
    ⟨0, State.Cleared, 0⟩ 160 0 0 (by decide)

/-- Shared helper: `State.transition` only ever emits power writes. -/
lemma set_brightness_not_in_transition (s : State) (v : Nat) :
    Action.setBrightness v ∉ State.transition s := by
  cases s <;> simp [State.transition]

/-- Shared helper: `cycle` is `cycleWith` instantiated at the modelled
brightness mapper. -/
lemma cycle_eq_cycleWith (args : Args) (ls : LoopState) (p a now : Nat) :
    cycle args ls p a now =
      cycleWith map_ambient_to_display_brightness args ls p a now := rfl

/-- Shared helper: `runCycles` is `runCyclesWith` instantiated at the
modelled brightness mapper. -/
lemma runCycles_eq_runCyclesWith (args : Args) (inputs : List CycleInput) :
    ∀ ls : LoopState,
      runCycles args ls inputs =
        runCyclesWith map_ambient_to_display_brightness args ls inputs := by
  induction inputs with
  | nil => intro ls; rfl
  | cons i rest ih =>
    intro ls
    simp [runCycles, runCyclesWith, ← cycle_eq_cycleWith, ih]

/-- Shared helper: the last-applied brightness after one cycle, for an
arbitrary brightness computation. -/
lemma cycleWith_brightness_eq (mapf : Nat → Range → Range → Nat)
    (args : Args) (ls : LoopState) (p a now : Nat) :
    (cycleWith mapf args ls p a now).1.brightness =
      match args.ambient_light_range, args.brightness_range with
      | some ar, some br => mapf a ar br
      | _, _ => ls.brightness := by
  rcases har : args.ambient_light_range with _ | ar <;>
    rcases hbr : args.brightness_range with _ | br <;>
      simp [cycleWith, har, hbr]
  split <;> simp_all

/-- Shared helper: starting from a stored brightness of 0, as long as every
value the brightness computation produces is 0, no cycle emits a brightness
write and the stored brightness stays 0. -/
lemma runCyclesWith_zero_brightness (mapf : Nat → Range → Range → Nat)
    (args : Args) (ar br : Range)
    (har : args.ambient_light_range = some ar)
    (hbr : args.brightness_range = some br) :
    ∀ inputs : List CycleInput, ∀ ls : LoopState,
      (∀ i ∈ inputs, mapf i.ambient ar br = 0) →
      ls.brightness = 0 →
      (runCyclesWith mapf args ls inputs).1.brightness = 0 ∧
      ∀ v, Action.setBrightness v ∉ (runCyclesWith mapf args ls inputs).2 := by
  intro inputs
  induction inputs with
  | nil =>
    intro ls _ h0
    simpa [runCyclesWith] using h0
  | cons i rest ih =>
    intro ls hz h0
    have hzi : mapf i.ambient ar br = 0 := hz i (by simp)
    have hzr : ∀ j ∈ rest, mapf j.ambient ar br = 0 :=
      fun j hj => hz j (by simp [hj])
    have hstepb : (cycleWith mapf args ls i.proximity i.ambient i.now).1.brightness = 0 := by
      rw [cycleWith_brightness_eq, har, hbr]
      exact hzi
    have hstepa : ∀ v,
        Action.setBrightness v ∉ (cycleWith mapf args ls i.proximity i.ambient i.now).2 := by
      intro v
      rcases hu : State.update ls.state args i.proximity i.now with _ | s2
      · simp [cycleWith, har, hbr, hu, hzi, h0]
      · simp [cycleWith, har, hbr, hu, hzi, h0]
        simpa using set_brightness_not_in_transition s2 v
    have hrest := ih (cycleWith mapf args ls i.proximity i.ambient i.now).1 hzr hstepb
    refine ⟨?_, ?_⟩
    · simpa [runCyclesWith] using hrest.1
    · intro v
      simp only [runCyclesWith, List.mem_append]
      push_neg
      exact ⟨hstepa v, hrest.2 v⟩

/-- C9: the loop enters its first cycle with a last-applied brightness of 0
that was never written to the display; with brightness control configured,
and for every brightness computation `mapf` — in particular the program's
actual `f32` computation, whose rounding the rational model does not
reproduce — as long as every value it computes is 0 (including on the very
first cycle), no `set_brightness` call is ever made. -/
theorem brightness_zero_never_written (mapf : Nat → Range → Range → Nat)
    (args : Args) (ar br : Range)
    (har : args.ambient_light_range = some ar)
    (hbr : args.brightness_range = some br)
    (inputs : List CycleInput)
    (hz : ∀ i ∈ inputs, mapf i.ambient ar br = 0) :
    initialLoopState.brightness = 0 ∧
    ∀ v, Action.setBrightness v ∉ (runCyclesWith mapf args initialLoopState inputs).2 :=
  ⟨rfl, (runCyclesWith_zero_brightness mapf args ar br har hbr inputs
    initialLoopState hz rfl).2⟩

/-- Closed instance of `brightness_zero_never_written`, at the modelled
mapper on its exact degenerate branch: a zero-width ambient range `30..30`
with brightness range `0..10` computes 0 on every cycle, and two cycles (the
second of which powers the display on) write no brightness. -/
theorem brightness_zero_never_written_witness :
    Action.setBrightness 3 ∉
      (runCyclesWith map_ambient_to_display_brightness
        ⟨⟨50, 150⟩, 20, some ⟨30, 30⟩, some ⟨0, 10⟩⟩ initialLoopState
        [⟨40, 5, 0⟩, ⟨200, 5, 1⟩]).2 :=
  (brightness_zero_never_written map_ambient_to_display_brightness
    ⟨⟨50, 150⟩, 20, some ⟨30, 30⟩, some ⟨0, 10⟩⟩
    ⟨30, 30⟩ ⟨0, 10⟩ rfl rfl [⟨40, 5, 0⟩, ⟨200, 5, 1⟩] (by decide)).2 3

end Prox
